import Mathlib

/-!
Verification development for the Fly-By-Wire joystick transmitter.

The definitions below are a shallow embedding of the two controller
variants in the repository:
  * joystcikControl.py  (joystick transmitter with simulation fallback)
  * alertApp/controller.py  (web visualiser + controller loop)
Python floats are modelled as rationals, machine integers as Int/Nat with
explicit mod-2^w arithmetic where overflow matters, byte strings as lists
of naturals below 256, and fallible operations (serial opens and writes)
by explicit boolean outcome parameters describing the environment.
-/

namespace FlyByWire

/-- clamp(v, lo, hi) from joystcikControl.py / alertApp controller.py:
lo if v is below lo else hi if v is above hi else v. -/
def clamp (v lo hi : ℚ) : ℚ := if v < lo then lo else if v > hi then hi else v

/-- apply_deadzone(v, dz): 0.0 if abs(v) is below dz else v (hard cutoff). -/
def apply_deadzone (v dz : ℚ) : ℚ := if |v| < dz then 0 else v

/-- Python int() applied to a rational value: truncation toward zero. -/
def pyInt (q : ℚ) : ℤ := if 0 ≤ q then ⌊q⌋ else -⌊-q⌋

/-- Quantization int(v * 32767) used for both axes in both variants. -/
def quantize (v : ℚ) : ℤ := pyInt (v * 32767)

/-- START byte constant (START in joystcikControl.py, START_BYTE in alertApp). -/
def START_BYTE : ℕ := 0xAA

/-- checksum(bytes) = sum(bytes) AND 0xFF; on bytes this is sum mod 256. -/
def checksum (bs : List ℕ) : ℕ := bs.sum % 256

/-- Unsigned 16-bit two's-complement image of a signed integer, as packed
by struct.pack for format "h". -/
def toU16 (n : ℤ) : ℕ := (n % 65536).toNat

/-- Low byte of a 16-bit value (little-endian byte 0). -/
def lo (n : ℕ) : ℕ := n % 256

/-- High byte of a 16-bit value (little-endian byte 1). -/
def hi (n : ℕ) : ℕ := n / 256 % 256

/-- struct.pack("<BhhB", START_BYTE, xi, yi, btn): start byte, the two
axis values as little-endian signed 16-bit fields, then the button byte.
Faithful for xi, yi in the signed 16-bit range and btn below 256 (outside
those ranges struct.pack raises instead). -/
def pack_payload (xi yi : ℤ) (btn : ℕ) : List ℕ :=
  [START_BYTE, lo (toU16 xi), hi (toU16 xi), lo (toU16 yi), hi (toU16 yi), btn]

/-- frame = payload + bytes([checksum(payload[1:])]) — the 7-byte wire frame
built identically at joystcikControl.py lines 440-442 and alertApp
controller.py lines 339-341. -/
def encode_frame (xi yi : ℤ) (btn : ℕ) : List ℕ :=
  pack_payload xi yi btn ++ [checksum (pack_payload xi yi btn).tail]

/-- INPUT_MODE values of alertApp controller.py: "auto" | "joystick" | "mouse"
("mouse" is the Forced(Override) mode of the spec). -/
inductive InputMode
  | auto
  | joystick
  | mouse
deriving DecidableEq

/-- The browser-override globals OVERRIDE_ACTIVE, OVERRIDE_X, OVERRIDE_Y,
OVERRIDE_BTN of alertApp controller.py lines 50-53. -/
structure OverrideState where
  active : Bool
  x : ℚ
  y : ℚ
  btn : ℕ
deriving DecidableEq

/-- Initial override globals (alertApp controller.py lines 50-53):
OVERRIDE_ACTIVE = False, OVERRIDE_X = OVERRIDE_Y = 0.0, OVERRIDE_BTN = 0. -/
def initOverride : OverrideState := { active := false, x := 0, y := 0, btn := 0 }

/-- One tick's worth of data read from the pygame joystick object:
get_axis(0), get_axis(1), get_numbuttons() and get_button(BTN_INDEX). -/
structure JoyReading where
  axis0 : ℚ
  axis1 : ℚ
  numbuttons : ℕ
  buttonPressed : Bool
deriving DecidableEq

/-- BTN_INDEX of alertApp controller.py (configured button index). -/
def BTN_INDEX : ℕ := 0

/-- Button read of alertApp controller.py line 332:
1 if get_numbuttons() exceeds BTN_INDEX and the button is down, else 0. -/
def joy_btn (j : JoyReading) : ℕ :=
  if BTN_INDEX < j.numbuttons ∧ j.buttonPressed = true then 1 else 0

/-- The (x, y, btn) values selected for one tick before quantization. -/
structure RawSample where
  x : ℚ
  y : ℚ
  btn : ℕ
deriving DecidableEq

/-- use_mouse of alertApp controller.py line 312:
(INPUT_MODE == "mouse") or (INPUT_MODE == "auto" and not JOYSTICK_READY). -/
def use_mouse (mode : InputMode) (ready : Bool) : Bool :=
  decide (mode = InputMode.mouse) || (decide (mode = InputMode.auto) && !ready)

/-- Input-selection block of alertApp controller.py run_loop lines 324-334:
if use_mouse and OVERRIDE_ACTIVE the clamped override values are used;
elif not use_mouse and a joystick object exists, the deadzoned, clamped and
Y-inverted joystick axes are used; else the neutral (0, 0, 0) sample. -/
def read_inputs (mode : InputMode) (ready : Bool) (ov : OverrideState)
    (js : Option JoyReading) (dz : ℚ) : RawSample :=
  if use_mouse mode ready && ov.active then
    { x := clamp ov.x (-1) 1, y := clamp ov.y (-1) 1, btn := ov.btn }
  else
    match js with
    | some j =>
        if use_mouse mode ready then { x := 0, y := 0, btn := 0 }
        else
          { x := clamp (apply_deadzone j.axis0 dz) (-1) 1,
            y := -(clamp (apply_deadzone j.axis1 dz) (-1) 1),
            btn := joy_btn j }
    | none => { x := 0, y := 0, btn := 0 }

/-- One parsed /override request of alertApp controller.py lines 269-281:
each field holds the successfully parsed value of the query parameter, or
none when the parameter is absent or malformed (float()/int() raised, in
which case that field is skipped). -/
structure OverrideQuery where
  qx : Option ℚ
  qy : Option ℚ
  qbtn : Option ℤ

/-- The /override handler body (alertApp controller.py lines 269-281):
merges the well-formed parameters into the override globals, coerces btn by
integer truthiness, and sets OVERRIDE_ACTIVE = True exactly when at least
one parameter was accepted; no parameter ever resets the flag. -/
def handle_override (st : OverrideState) (q : OverrideQuery) : OverrideState :=
  { active := if q.qx.isSome || q.qy.isSome || q.qbtn.isSome then true else st.active,
    x := match q.qx with | some v => v | none => st.x,
    y := match q.qy with | some v => v | none => st.y,
    btn := match q.qbtn with | some n => if n = 0 then 0 else 1 | none => st.btn }

/-- The override globals after a sequence of /override requests. -/
def run_overrides (st : OverrideState) (qs : List OverrideQuery) : OverrideState :=
  qs.foldl handle_override st

/-- The LATEST dictionary of alertApp controller.py (the published
snapshot): x, y, xi, yi, btn, frame (the wire bytes whose str() the code
stores), timestamp and simulation_mode. -/
structure Snapshot where
  x : ℚ
  y : ℚ
  xi : ℤ
  yi : ℤ
  btn : ℕ
  frame : List ℕ
  timestamp : ℚ
  simulation_mode : Bool
deriving DecidableEq

/-- Initial LATEST value (alertApp controller.py lines 44-47), taking the
module-load time as a parameter. -/
def LATEST0 (t0 : ℚ) : Snapshot :=
  { x := 0, y := 0, xi := 0, yi := 0, btn := 0, frame := [],
    timestamp := t0, simulation_mode := true }

/-- The loop-carried mutable state of run_loop: the last transmitted triple
(prev_xi, prev_yi, prev_btn — None before any transmission, always assigned
together at line 350) and the published snapshot. -/
structure LoopState where
  prev : Option (ℤ × ℤ × ℕ)
  latest : Snapshot
deriving DecidableEq

/-- run_loop entry state: prev_xi = prev_yi = prev_btn = None (line 315)
and the initial LATEST dictionary. -/
def initLoopState (t0 : ℚ) : LoopState := { prev := none, latest := LATEST0 t0 }

/-- changed = (xi != prev_xi) or (yi != prev_yi) or (btn != prev_btn)
(alertApp controller.py line 344; comparisons with None are True). -/
def changed (prev : Option (ℤ × ℤ × ℕ)) (xi yi : ℤ) (btn : ℕ) : Bool :=
  match prev with
  | none => true
  | some (pxi, pyi, pbtn) =>
      decide (xi ≠ pxi) || decide (yi ≠ pyi) || decide (btn ≠ pbtn)

/-- Quantize/encode/transmit/publish section of alertApp controller.py
run_loop lines 336-352, for one tick. Arguments: whether --serial was
given (USE_SERIAL), whether SER is not None, whether a SER.write call would
succeed (the code wraps the write in try/except Exception: pass, so the
outcome is ignored), the loop state, the tick's (x, y, btn) from
read_inputs, and the wall-clock time (time.time()) used for the snapshot.
Returns whether a write was attempted, and the new loop state: prev is
replaced by the new triple exactly when a write was attempted (line 350)
and LATEST is replaced wholesale every tick (line 352) with
simulation_mode = (not USE_SERIAL or SER is None). -/
def tick_tx (use_serial ser_present writeOk : Bool) (s : LoopState)
    (x y : ℚ) (btn : ℕ) (tNow : ℚ) : Bool × LoopState :=
  let xi := quantize x
  let yi := quantize y
  let frame := encode_frame xi yi btn
  let send := changed s.prev xi yi btn && use_serial && ser_present
  (send,
   { prev := if send then some (xi, yi, btn) else s.prev,
     latest := { x := x, y := y, xi := xi, yi := yi, btn := btn, frame := frame,
                 timestamp := tNow, simulation_mode := !use_serial || !ser_present } })

/-- send_frame of joystcikControl.py lines 79-93, abstracted over whether
the port object exists and is open and whether ser.write would raise.
Returns the number of write attempts made and the new SIMULATION_MODE:
in simulation mode nothing is attempted; otherwise one write is attempted
and a raised SerialException switches SIMULATION_MODE to True (the frame is
not retried and the exception does not escape). -/
def send_frame (sim ser_open writeOk : Bool) : ℕ × Bool :=
  if sim then (0, sim)
  else if ser_open then (if writeOk then (1, sim) else (1, true))
  else (0, sim)

/-- SIMULATION_MODE after a sequence of send_frame calls, one per tick of
the joystcikControl.py main loop (the only code that writes the flag after
startup). Each list element gives that tick's (ser open?, write ok?). -/
def run_sim (sim : Bool) (envs : List (Bool × Bool)) : Bool :=
  envs.foldl (fun s e => (send_frame s e.1 e.2).2) sim

/-- setup_serial_connection of joystcikControl.py lines 39-77, abstracted
over the environment: the configured PORT, whether opening it succeeds, and
the enumerated port list with each port's open outcome. Returns
(ser, SIMULATION_MODE). With an empty enumeration the function returns
simulation immediately (the configured port is not even tried); otherwise
the configured port is tried, then on failure only the first enumerated
port; a second failure degrades to simulation. The function always returns
(no exception escapes), so the process continues in every case. -/
def setup_serial_connection (cfgPort : String) (cfgOk : Bool)
    (available : List (String × Bool)) : Option String × Bool :=
  match available with
  | [] => (none, true)
  | p0 :: _ =>
      if cfgOk then (some cfgPort, false)
      else if p0.2 then (some p0.1, false)
      else (none, true)

/-- Startup joystick check of joystcikControl.py main() lines 371-373:
sys.exit(1) before the transmission loop when pygame reports no joystick. -/
def joystick_startup (joystick_count : ℕ) : Except ℕ Unit :=
  if joystick_count = 0 then Except.error 1 else Except.ok ()

/-- RATE_HZ of alertApp controller.py (240). -/
def RATE_HZ : ℚ := 240

/-- t_step = 1.0 / RATE_HZ of alertApp run_loop. -/
def t_step : ℚ := 1 / RATE_HZ

/-- RATE_HZ of joystcikControl.py (100). -/
def RATE_HZ_tx : ℚ := 100

/-- t_delay = 1.0 / RATE_HZ of joystcikControl.py main(). -/
def t_delay : ℚ := 1 / RATE_HZ_tx

/-- End-of-tick scheduling of alertApp run_loop lines 354-359: given the
absolute target next_t and the current time now, sleep next_t - now when
positive (waking at now + that duration), then advance the target by one
period. Returns (wake time, new target). -/
def fixed_step_sleep (next_t now : ℚ) : ℚ × ℚ :=
  (if next_t - now > 0 then now + (next_t - now) else now, next_t + t_step)

/-- The absolute target after a sequence of ticks of the alertApp loop,
one list element per tick giving the time at which that tick's body
finished. -/
def run_sched (next_t : ℚ) (nows : List ℚ) : ℚ :=
  nows.foldl (fun nt now => (fixed_step_sleep nt now).2) next_t

/-- End-of-tick scheduling of joystcikControl.py main() line 454:
time.sleep(t_delay) — a fixed duration after the tick body, so the wake
time is now + t_delay whatever the deadline would have been. -/
def fixed_delay_sleep (now : ℚ) : ℚ := now + t_delay

/-! Helper lemmas. -/

lemma toU16_lt (n : ℤ) : toU16 n < 65536 := by
  unfold toU16
  have h1 : n % 65536 < 65536 := Int.emod_lt_of_pos n (by norm_num)
  have h2 : 0 ≤ n % 65536 := Int.emod_nonneg n (by norm_num)
  omega

lemma toU16_cast (n : ℤ) : ((toU16 n : ℤ)) = n % 65536 := by
  unfold toU16
  exact Int.toNat_of_nonneg (Int.emod_nonneg n (by norm_num))

lemma lo_add_hi (n : ℕ) (h : n < 65536) : lo n + 256 * hi n = n := by
  unfold lo hi
  omega

lemma lo_lt (n : ℕ) : lo n < 256 := Nat.mod_lt _ (by norm_num)

lemma hi_lt (n : ℕ) : hi n < 256 := Nat.mod_lt _ (by norm_num)

/-- Little-endian reassembly of the two packed bytes recovers the value
modulo 2^16. -/
lemma bytes_recover (n : ℤ) :
    ((lo (toU16 n) : ℤ) + 256 * (hi (toU16 n) : ℤ)) % 65536 = n % 65536 := by
  have h := lo_add_hi (toU16 n) (toU16_lt n)
  have hcast : ((lo (toU16 n) : ℤ) + 256 * (hi (toU16 n) : ℤ)) = ((toU16 n : ℤ)) := by
    exact_mod_cast congrArg (fun m : ℕ => (m : ℤ)) h
  rw [hcast, toU16_cast]
  exact Int.emod_emod_of_dvd n dvd_rfl

lemma clamp_mem (w l h : ℚ) (hlh : l ≤ h) : l ≤ clamp w l h ∧ clamp w l h ≤ h := by
  unfold clamp
  split_ifs with h1 h2
  · exact ⟨le_refl _, hlh⟩
  · exact ⟨hlh, le_refl _⟩
  · exact ⟨not_lt.mp h1, not_lt.mp h2⟩

lemma pyInt_neg (q : ℚ) : pyInt (-q) = -pyInt q := by
  unfold pyInt
  by_cases h : 0 ≤ q
  · by_cases h2 : 0 ≤ -q
    · have hq : q = 0 := le_antisymm (by linarith) h
      subst hq; norm_num
    · rw [if_pos h, if_neg h2, neg_neg]
  · have h2 : 0 ≤ -q := by
      have := not_le.mp h
      linarith
    rw [if_pos h2, if_neg h, neg_neg]

lemma pyInt_eq_floor (q : ℚ) (h : 0 ≤ q) : pyInt q = ⌊q⌋ := if_pos h

lemma pyInt_eq_ceil (q : ℚ) (h : q < 0) : pyInt q = ⌈q⌉ := by
  rw [pyInt, if_neg (not_le.mpr h), Int.floor_neg, neg_neg]

lemma pyInt_le_of_le (q : ℚ) (B : ℕ) (h : q ≤ B) : pyInt q ≤ B := by
  by_cases h0 : 0 ≤ q
  · rw [pyInt_eq_floor q h0]
    have hf : ⌊q⌋ ≤ ⌊(B : ℚ)⌋ := Int.floor_le_floor h
    rwa [Int.floor_natCast] at hf
  · rw [pyInt_eq_ceil q (not_le.mp h0)]
    have hc : ⌈q⌉ ≤ ⌈(0 : ℚ)⌉ := Int.ceil_le_ceil (le_of_lt (not_le.mp h0))
    simp only [Int.ceil_zero] at hc
    exact hc.trans (by positivity)

lemma pyInt_bounds (q : ℚ) (B : ℕ) (h1 : -(B : ℚ) ≤ q) (h2 : q ≤ B) :
    -(B : ℤ) ≤ pyInt q ∧ pyInt q ≤ B := by
  constructor
  · have := pyInt_le_of_le (-q) B (by linarith)
    rw [pyInt_neg] at this
    omega
  · exact pyInt_le_of_le q B h2

lemma changed_iff (prev : Option (ℤ × ℤ × ℕ)) (xi yi : ℤ) (btn : ℕ) :
    changed prev xi yi btn = true ↔ prev ≠ some (xi, yi, btn) := by
  cases prev with
  | none => simp [changed]
  | some t =>
      obtain ⟨pxi, pyi, pbtn⟩ := t
      simp only [changed, Bool.or_eq_true, decide_eq_true_eq, ne_eq,
        Option.some.injEq, Prod.mk.injEq]
      omega

lemma run_sim_true (envs : List (Bool × Bool)) : run_sim true envs = true := by
  induction envs with
  | nil => rfl
  | cons e tl ih =>
      show run_sim ((send_frame true e.1 e.2).2) tl = true
      simpa [send_frame] using ih

lemma run_overrides_active (st : OverrideState) (qs : List OverrideQuery)
    (h : st.active = true) : (run_overrides st qs).active = true := by
  induction qs generalizing st with
  | nil => exact h
  | cons q tl ih =>
      show (run_overrides (handle_override st q) tl).active = true
      apply ih
      simp only [handle_override]
      split
      · rfl
      · exact h

/-! Claim theorems. -/

/-- C1: for every sample whose axis values fit in a signed 16-bit range and
whose button is 0 or 1, the frame encoder produces exactly 7 bytes
[0xAA, xi_lo, xi_hi, yi_lo, yi_hi, btn, checksum], with each 16-bit field
little-endian (reassembling low + 256 * high recovers the value mod 2^16)
and the checksum equal to the sum of bytes 1 through 5 modulo 256 (start
byte excluded); in particular the sample (xi=100, yi=-200, btn=1) yields
the frame [0xAA, 0x64, 0x00, 0x38, 0xFF, 0x01, 0x9C], whose last byte is
(0x64 + 0x00 + 0x38 + 0xFF + 0x01) mod 256. -/
theorem frame_encoding_correct (xi yi : ℤ) (btn : ℕ)
    (hx1 : -32768 ≤ xi) (hx2 : xi ≤ 32767)
    (hy1 : -32768 ≤ yi) (hy2 : yi ≤ 32767) (hb : btn ≤ 1) :
    (encode_frame xi yi btn).length = 7 ∧
    (∃ b1 b2 b3 b4 : ℕ,
      encode_frame xi yi btn =
        [0xAA, b1, b2, b3, b4, btn, (b1 + b2 + b3 + b4 + btn) % 256] ∧
      b1 < 256 ∧ b2 < 256 ∧ b3 < 256 ∧ b4 < 256 ∧
      ((b1 : ℤ) + 256 * (b2 : ℤ)) % 65536 = xi % 65536 ∧
      ((b3 : ℤ) + 256 * (b4 : ℤ)) % 65536 = yi % 65536) ∧
    encode_frame 100 (-200) 1 = [0xAA, 0x64, 0x00, 0x38, 0xFF, 0x01, 0x9C] := by
  refine ⟨rfl, ⟨lo (toU16 xi), hi (toU16 xi), lo (toU16 yi), hi (toU16 yi), ?_,
      lo_lt _, hi_lt _, lo_lt _, hi_lt _, bytes_recover xi, bytes_recover yi⟩, by decide⟩
  show pack_payload xi yi btn ++ [checksum (pack_payload xi yi btn).tail] = _
  unfold pack_payload checksum START_BYTE
  simp [List.sum_cons]
  ring_nf

/-- Closed instance of frame_encoding_correct at the sample
(xi=100, yi=-200, btn=1) from the claim. -/
theorem frame_encoding_correct_witness :
    (encode_frame 100 (-200) 1).length = 7 ∧
    encode_frame 100 (-200) 1 = [0xAA, 0x64, 0x00, 0x38, 0xFF, 0x01, 0x9C] := by
  have h := frame_encoding_correct 100 (-200) 1 (by norm_num) (by norm_num)
    (by norm_num) (by norm_num) (by norm_num)
  exact ⟨h.1, h.2.2⟩

/-- C4: for every raw axis reading v and deadzone threshold dz at least 0,
the conditioner returns 0 when the magnitude of v is below dz and v
unchanged otherwise (a hard cutoff, no rescaling); the subsequent clamp
keeps the value in [-1, 1]; and the quantization int(v * 32767) truncates
toward zero (floor of the scaled value when it is nonnegative, ceiling when
it is negative) rather than rounding. In particular the pipeline maps
v = 0.02 with dz = 0.05 to the quantized value 0, and v = -1.5 (clamped to
-1) to -32767. -/
theorem signal_conditioning_correct (v dz : ℚ) (hdz : 0 ≤ dz) :
    (|v| < dz → apply_deadzone v dz = 0) ∧
    (dz ≤ |v| → apply_deadzone v dz = v) ∧
    (-1 ≤ clamp (apply_deadzone v dz) (-1) 1 ∧
      clamp (apply_deadzone v dz) (-1) 1 ≤ 1) ∧
    (0 ≤ v → quantize v = ⌊v * 32767⌋) ∧
    (v < 0 → quantize v = ⌈v * 32767⌉) ∧
    quantize (clamp (apply_deadzone (1/50) (1/20)) (-1) 1) = 0 ∧
    quantize (clamp (apply_deadzone (-(3/2)) (1/20)) (-1) 1) = -32767 := by
  refine ⟨?_, ?_, ?_, ?_, ?_, ?_, ?_⟩
  · intro h; rw [apply_deadzone, if_pos h]
  · intro h; rw [apply_deadzone, if_neg (not_lt.mpr h)]
  · exact clamp_mem (apply_deadzone v dz) (-1) 1 (by norm_num)
  · intro h
    exact pyInt_eq_floor _ (by positivity)
  · intro h
    exact pyInt_eq_ceil _ (by nlinarith)
  · norm_num [quantize, pyInt, apply_deadzone, clamp, abs]
  · norm_num [quantize, pyInt, apply_deadzone, clamp, abs]

/-- Closed instance of signal_conditioning_correct at dz = 0.05 and
v = 0.02: the deadzone zeroes the reading and the quantized output is 0. -/
theorem signal_conditioning_correct_witness :
    apply_deadzone (1/50) (1/20) = 0 ∧
    quantize (clamp (apply_deadzone (1/50) (1/20)) (-1) 1) = 0 := by
  have h := signal_conditioning_correct (1/50) (1/20) (by norm_num)
  exact ⟨h.1 (by rw [abs_of_pos] <;> norm_num), h.2.2.2.2.2.1⟩

/-- C5: for every v in [-1, 1] the quantization int(v * 32767) lies in
[-32767, 32767] and is odd: quantize(-v) = -quantize(v). With truncation
toward zero this holds at every point of the interval, so in particular
also at the saturation boundaries. -/
theorem quantize_range_odd (v : ℚ) (h1 : -1 ≤ v) (h2 : v ≤ 1) :
    (-32767 ≤ quantize v ∧ quantize v ≤ 32767) ∧ quantize (-v) = -quantize v := by
  constructor
  · have h := pyInt_bounds (v * 32767) 32767 (by push_cast; linarith) (by push_cast; linarith)
    rw [quantize]
    exact ⟨by exact_mod_cast h.1, by exact_mod_cast h.2⟩
  · rw [quantize, quantize, neg_mul, pyInt_neg]

/-- Closed instance of quantize_range_odd at v = 1/2:
quantize(1/2) = 16383 is inside [-32767, 32767] and
quantize(-1/2) = -16383. -/
theorem quantize_range_odd_witness :
    quantize (1/2) = 16383 ∧ -32767 ≤ quantize (1/2) ∧ quantize (1/2) ≤ 32767 ∧
    quantize (-(1/2)) = -quantize (1/2) := by
  have h := quantize_range_odd (1/2) (by norm_num) (by norm_num)
  refine ⟨?_, h.1.1, h.1.2, h.2⟩
  rw [quantize, pyInt, if_pos (by norm_num)]
  norm_num

/-- C2 counterexample: with INPUT_MODE = "auto" and a working joystick
(JOYSTICK_READY = true), a tick on which OverrideState.active is true uses
the joystick reading (axes 0.5, 0.5 giving the sample
(0.5, -0.5, 0)), not the override values (0.9, -0.9, 1): the claim that the
override wins over a present joystick regardless of the configured input
mode is false at this input. -/
theorem override_ignored_with_joystick_cex :
    (OverrideState.mk true (9/10) (-(9/10)) 1).active = true ∧
    read_inputs InputMode.auto true (OverrideState.mk true (9/10) (-(9/10)) 1)
        (some (JoyReading.mk (1/2) (1/2) 1 false)) (3/50) =
      { x := 1/2, y := -(1/2), btn := 0 } ∧
    ({ x := 1/2, y := -(1/2), btn := 0 } : RawSample) ≠
      { x := 9/10, y := -(9/10), btn := 1 } := by
  refine ⟨rfl, ?_, ?_⟩
  · norm_num [read_inputs, use_mouse, joy_btn, BTN_INDEX, apply_deadzone, clamp, abs]
    rfl
  · intro h
    have hx := congrArg RawSample.x h
    norm_num at hx

/-- C2 amended: the override values win only when the input source decided
at startup is the mouse/override source (mode Forced(Override), or Auto
with no working joystick): on such ticks an active override supplies the
(clamped) override values, and it keeps doing so on all subsequent ticks
because no /override request ever deactivates the flag; when the decided
source is the joystick (mode Forced(Joystick) or Auto with a working
joystick) and a joystick object exists, the joystick values are used even
while the override is active. -/
theorem override_arbiter_amended (mode : InputMode) (ready : Bool)
    (ov : OverrideState) (js : Option JoyReading) (dz : ℚ) :
    (use_mouse mode ready = true → ov.active = true →
      read_inputs mode ready ov js dz =
        { x := clamp ov.x (-1) 1, y := clamp ov.y (-1) 1, btn := ov.btn }) ∧
    (use_mouse mode ready = true → ov.active = true → ∀ qs : List OverrideQuery,
      read_inputs mode ready (run_overrides ov qs) js dz =
        { x := clamp (run_overrides ov qs).x (-1) 1,
          y := clamp (run_overrides ov qs).y (-1) 1,
          btn := (run_overrides ov qs).btn }) ∧
    (use_mouse mode ready = false → ∀ j, js = some j →
      read_inputs mode ready ov js dz =
        { x := clamp (apply_deadzone j.axis0 dz) (-1) 1,
          y := -(clamp (apply_deadzone j.axis1 dz) (-1) 1),
          btn := joy_btn j }) := by
  refine ⟨?_, ?_, ?_⟩
  · intro hm ha
    rw [read_inputs.eq_def, hm, ha]
    rfl
  · intro hm ha qs
    rw [read_inputs.eq_def, hm, run_overrides_active ov qs ha]
    rfl
  · intro hm j hj
    subst hj
    rw [read_inputs.eq_def, hm]
    rfl

/-- Closed instance of override_arbiter_amended: in mode Forced(Override)
with an active override, the tick sample is the clamped override value,
and with the joystick source decided the joystick reading is used. -/
theorem override_arbiter_amended_witness :
    read_inputs InputMode.mouse false (OverrideState.mk true 2 (-2) 1) none (3/50) =
      { x := clamp 2 (-1) 1, y := clamp (-2) (-1) 1, btn := 1 } ∧
    read_inputs InputMode.joystick true (OverrideState.mk true 2 (-2) 1)
        (some (JoyReading.mk 0 0 0 false)) (3/50) =
      { x := clamp (apply_deadzone 0 (3/50)) (-1) 1,
        y := -(clamp (apply_deadzone 0 (3/50)) (-1) 1),
        btn := joy_btn (JoyReading.mk 0 0 0 false) } := by
  constructor
  · exact (override_arbiter_amended InputMode.mouse false
      (OverrideState.mk true 2 (-2) 1) none (3/50)).1 rfl rfl
  · exact (override_arbiter_amended InputMode.joystick true
      (OverrideState.mk true 2 (-2) 1) (some (JoyReading.mk 0 0 0 false)) (3/50)).2.2
      rfl (JoyReading.mk 0 0 0 false) rfl

/-- C8: with no joystick object and no active override, a tick in any mode
other than Forced(Override) yields the neutral sample (0, 0, 0) (and the
selection function returns normally — this is not an error); and in
joystcikControl.py, when no joystick device exists at startup the process
exits with the non-zero status 1 before the transmission loop. -/
theorem input_absent_correct (mode : InputMode) (ready : Bool)
    (ov : OverrideState) (dz : ℚ) (n : ℕ) :
    (ov.active = false → mode ≠ InputMode.mouse →
      read_inputs mode ready ov none dz = { x := 0, y := 0, btn := 0 }) ∧
    (n = 0 → joystick_startup n = Except.error 1 ∧ (1 : ℕ) ≠ 0) := by
  constructor
  · intro ha _
    rw [read_inputs, ha]
    simp
  · intro hn
    subst hn
    exact ⟨rfl, by norm_num⟩

/-- Closed instance of input_absent_correct: mode Auto, no joystick, no
active override gives the neutral sample, and zero joysticks at startup
exits with status 1. -/
theorem input_absent_correct_witness :
    read_inputs InputMode.auto false (OverrideState.mk false 5 5 1) none (3/50) =
      { x := 0, y := 0, btn := 0 } ∧
    joystick_startup 0 = Except.error 1 := by
  have h := input_absent_correct InputMode.auto false (OverrideState.mk false 5 5 1) (3/50) 0
  exact ⟨h.1 rfl (by simp), (h.2 rfl).1⟩

/-- C3 counterexample: in alertApp controller.py run_loop, a failing
SER.write while the link is present (USE_SERIAL true, SER not None) does
not transition the link to Simulation: starting from the initial loop
state, the tick attempts a write which fails, yet the published snapshot
still reports simulation_mode = false, and the next tick attempts another
write — contradicting an immediate and permanent transition to
Simulation on write failure. -/
theorem alertApp_write_failure_stays_open_cex :
    (tick_tx true true false (initLoopState 0) 0 0 1 0).1 = true ∧
    ((tick_tx true true false (initLoopState 0) 0 0 1 0).2).latest.simulation_mode = false ∧
    (tick_tx true true true ((tick_tx true true false (initLoopState 0) 0 0 1 0).2)
        0 0 0 0).1 = true := by
  refine ⟨rfl, rfl, ?_⟩
  have hprev : ((tick_tx true true false (initLoopState 0) 0 0 1 0).2).prev
      = some (quantize 0, quantize 0, 1) := rfl
  show changed ((tick_tx true true false (initLoopState 0) 0 0 1 0).2).prev
      (quantize 0) (quantize 0) 0 && true && true = true
  rw [hprev]
  simp [changed_iff]

/-- C3 amended: the two variants differ. In joystcikControl.py send_frame,
a write failure while the link is open switches SIMULATION_MODE to true
with a single write attempt (no retry) and no exception escaping, and the
flag then stays true for every subsequent tick of the process (nothing
reopens the link). In alertApp controller.py run_loop, by contrast, the
write exception is swallowed: the tick's outcome and state are identical
whether the write fails or succeeds, so the link stays Open and is not
degraded to Simulation. In neither variant is the failed frame retried or
the process terminated. -/
theorem write_failure_policy_amended :
    send_frame false true false = (1, true) ∧
    (∀ envs : List (Bool × Bool), run_sim true envs = true) ∧
    (∀ sim ser_open writeOk : Bool, (send_frame sim ser_open writeOk).1 ≤ 1) ∧
    (∀ (u p : Bool) (s : LoopState) (x y : ℚ) (btn : ℕ) (t : ℚ),
      tick_tx u p false s x y btn t = tick_tx u p true s x y btn t) := by
  refine ⟨rfl, run_sim_true, ?_, ?_⟩
  · intro sim ser_open writeOk
    cases sim <;> cases ser_open <;> cases writeOk <;> simp [send_frame]
  · intro u p s x y btn t
    rfl

/-- C6 counterexample: with the configured port unavailable and the
enumeration listing a first port that fails to open and a second port that
would open successfully, setup_serial_connection ends in SIMULATION_MODE
with no port — the first successful open among the alternatives does not
win, because only the first enumerated port is ever tried. -/
theorem second_port_not_tried_cex :
    setup_serial_connection "COM10" false [("COM3", false), ("COM4", true)] = (none, true) ∧
    ∃ pb ∈ [(("COM3" : String), false), ("COM4", true)], pb.2 = true := by
  exact ⟨rfl, ⟨("COM4", true), by simp, rfl⟩⟩

/-- C6 amended: when no port is enumerated the link degrades to Simulation
immediately (the configured port is not tried); otherwise the configured
port is tried first and on success the link is Open on it; on failure only
the FIRST enumerated port is tried: if it opens the link is Open on it
(not Simulation), and if it also fails the link degrades to Simulation.
All outcomes are returned normally, so the degradation is non-fatal and
the process continues. -/
theorem serial_open_fallback_amended (cfgPort : String) (cfgOk : Bool)
    (p : String × Bool) (rest : List (String × Bool)) :
    setup_serial_connection cfgPort cfgOk [] = (none, true) ∧
    (cfgOk = true →
      setup_serial_connection cfgPort cfgOk (p :: rest) = (some cfgPort, false)) ∧
    (cfgOk = false → p.2 = true →
      setup_serial_connection cfgPort cfgOk (p :: rest) = (some p.1, false)) ∧
    (cfgOk = false → p.2 = false →
      setup_serial_connection cfgPort cfgOk (p :: rest) = (none, true)) := by
  refine ⟨rfl, ?_, ?_, ?_⟩
  · intro h
    subst h
    rfl
  · intro h h2
    subst h
    simp [setup_serial_connection, h2]
  · intro h h2
    subst h
    simp [setup_serial_connection, h2]

/-- Closed instance of serial_open_fallback_amended: configured port fails,
the first enumerated alternative opens, and the link ends Open on it. -/
theorem serial_open_fallback_amended_witness :
    setup_serial_connection "COM10" false [("COM9", true)] = (some "COM9", false) := by
  exact (serial_open_fallback_amended "COM10" false ("COM9", true) []).2.2.1 rfl rfl

/-- C7: with the serial link in use (USE_SERIAL true and SER not None), a
tick attempts a write if and only if the quantized (xi, yi, btn) triple
differs from the last transmitted triple; the last-transmitted triple is
updated exactly when a write is attempted; and the published snapshot is
replaced on every tick with the tick's sample, frame and link mode,
whether or not a transmission occurred (and whether or not it succeeded). -/
theorem send_on_change_correct (u p w : Bool) (s : LoopState) (x y : ℚ)
    (btn : ℕ) (t : ℚ) (hu : u = true) (hp : p = true) :
    ((tick_tx u p w s x y btn t).1 = true ↔
      s.prev ≠ some (quantize x, quantize y, btn)) ∧
    ((tick_tx u p w s x y btn t).2.prev =
      if (tick_tx u p w s x y btn t).1 then some (quantize x, quantize y, btn)
      else s.prev) ∧
    (∀ u' p' w' t', ((tick_tx u' p' w' s x y btn t').2).latest =
      { x := x, y := y, xi := quantize x, yi := quantize y, btn := btn,
        frame := encode_frame (quantize x) (quantize y) btn,
        timestamp := t', simulation_mode := !u' || !p' }) := by
  subst hu
  subst hp
  refine ⟨?_, rfl, fun u' p' w' t' => rfl⟩
  simp only [tick_tx, Bool.and_true]
  exact changed_iff s.prev (quantize x) (quantize y) btn

/-- Closed instance of send_on_change_correct: on the first tick nothing
has been transmitted yet, so a write is attempted. -/
theorem send_on_change_correct_witness :
    (tick_tx true true true (initLoopState 0) 0 0 1 0).1 = true := by
  have h := send_on_change_correct true true true (initLoopState 0) 0 0 1 0 rfl rfl
  exact h.1.mpr (by simp [initLoopState, LATEST0])

/-- C9 counterexample: the joystcikControl.py scheduler (time.sleep of a
fixed t_delay after each tick) does not sleep until an absolute deadline:
with the first period boundary at t_delay, a tick body ending at 1/250
wakes at 1/250 + t_delay, not at the deadline, and two tick bodies of
different durations wake at different times — while the absolute-deadline
discipline of alertApp wakes at the same target in both cases. -/
theorem fixed_delay_not_absolute_cex :
    fixed_delay_sleep (1/250) ≠ fixed_delay_sleep (1/500) ∧
    (fixed_step_sleep t_delay (1/250)).1 = (fixed_step_sleep t_delay (1/500)).1 ∧
    fixed_delay_sleep (1/250) ≠ t_delay := by
  refine ⟨?_, ?_, ?_⟩
  · norm_num [fixed_delay_sleep, t_delay, RATE_HZ_tx]
  · norm_num [fixed_step_sleep, t_delay, RATE_HZ_tx]
  · norm_num [fixed_delay_sleep, t_delay, RATE_HZ_tx]

/-- C9 amended: the alertApp controller.py run_loop scheduler computes an
absolute next-wake time, sleeps until it (waking at max(now, next_t)) and
advances the target by exactly one period 1/RATE_HZ per tick regardless of
how long the tick body took — after any sequence of ticks the target is
the start target plus exactly one period per tick. The joystcikControl.py
main loop instead sleeps the fixed duration t_delay = 1/RATE_HZ after each
tick, so its wake time is the tick-body end time plus t_delay. -/
theorem scheduler_discipline_amended :
    (∀ (t0 : ℚ) (nows : List ℚ),
      run_sched t0 nows = t0 + nows.length * t_step) ∧
    (∀ nt now : ℚ, (fixed_step_sleep nt now).2 = nt + t_step) ∧
    (∀ nt now : ℚ, (fixed_step_sleep nt now).1 = max now nt) ∧
    (∀ now : ℚ, fixed_delay_sleep now = now + t_delay) := by
  refine ⟨?_, fun nt now => rfl, ?_, fun now => rfl⟩
  · intro t0 nows
    induction nows generalizing t0 with
    | nil => simp [run_sched]
    | cons a tl ih =>
        show run_sched (t0 + t_step) tl = _
        rw [ih, List.length_cons]
        push_cast
        ring
  · intro nt now
    rw [fixed_step_sleep]
    split_ifs with h
    · rw [max_eq_right (by linarith)]
      ring
    · rw [max_eq_left (by linarith)]

/-- C10: the override-active flag starts false; a /override request sets it
to true exactly when it carries at least one well-formed x, y or btn
parameter (there is no parameter that deactivates it, so a request with the
flag already true leaves it true); and over any sequence of requests — the
only code in the program that writes the flag — once true it stays true
until the process exits. -/
theorem override_flag_monotone (st : OverrideState) (q : OverrideQuery)
    (qs : List OverrideQuery) :
    initOverride.active = false ∧
    ((handle_override st q).active = true ↔
      (st.active = true ∨ q.qx.isSome = true ∨ q.qy.isSome = true ∨
        q.qbtn.isSome = true)) ∧
    (st.active = true → (run_overrides st qs).active = true) := by
  refine ⟨rfl, ?_, run_overrides_active st qs⟩
  simp only [handle_override]
  by_cases hx : q.qx.isSome <;> by_cases hy : q.qy.isSome <;>
    by_cases hb : q.qbtn.isSome <;> simp [hx, hy, hb]

/-- Closed instance of override_flag_monotone: a state with the flag set
keeps it set across a request sequence. -/
theorem override_flag_monotone_witness :
    (run_overrides (OverrideState.mk true 0 0 0) []).active = true := by
  exact (override_flag_monotone (OverrideState.mk true 0 0 0)
    (OverrideQuery.mk none none none) []).2.2 rfl

end FlyByWire
